import Mathlib

/-!
Verification of the quismon/terraform-provider-quismon reconciliation layer.

The Go source is shallowly embedded: each provider/client function that the
properties below depend on is translated into an executable Lean definition.
Terraform framework nullable values (`types.String`, `types.Bool`,
`types.Int64`) are modelled as `Option`; the Go zero-value accessors
(`ValueString`, `ValueBool`, `ValueInt64`) are modelled explicitly.
`map[string]interface{}` values are modelled as association lists of JSON
values.  The Go standard library JSON codec (`encoding/json`) is external to
the repository, so it is abstracted as an explicit parsing parameter wherever
the source invokes it; every theorem is stated for all parsers.
-/

namespace Quismon

/-- A JSON value, the model of Go's `interface{}` holding decoded JSON. -/
inductive JsonVal where
  | null : JsonVal
  | bool (b : Bool) : JsonVal
  | num (n : Int) : JsonVal
  | str (s : String) : JsonVal
  | arr (elems : List JsonVal) : JsonVal
  | obj (fields : List (String × JsonVal)) : JsonVal
deriving Repr

/-- Model of Go `map[string]interface{}`: an association list of JSON values. -/
abbrev JsonObj := List (String × JsonVal)

/-- Go `types.String.ValueString()`: the string, or `""` when null. -/
def valueString (o : Option String) : String := o.getD ""

/-- Go `types.Bool.ValueBool()`: the boolean, or `false` when null. -/
def valueBool (o : Option Bool) : Bool := o.getD false

/-- Go `types.Int64.ValueInt64()`: the integer, or `0` when null. -/
def valueInt64 (o : Option Int) : Int := o.getD 0

/-! ## API client (`internal/client/client.go`) -/

/-- The `{data, error, meta}` response envelope (`client.APIResponse`).
`data` is `json.RawMessage` (`none` iff the field is absent from the JSON);
`error` is `*string` (`none` iff absent or null). `meta` carries no logic. -/
structure Envelope where
  data : Option String
  error : Option String
deriving DecidableEq, Repr

/-- Errors produced by the client.  In the Go source every error is an
untyped `fmt.Errorf` value; each constructor here corresponds to one
distinct construction site / format string in `client.go`.  In particular
the single site for HTTP status >= 400 is `apiError`, with format
`"API error (%d): %s"`; the source defines no not-found-specific error. -/
inductive ClientError where
  | marshalError (msg : String)
  | requestBuildError (msg : String)
  | transportError (msg : String)
  | readBodyError (msg : String)
  | apiError (status : Nat) (message : String)
  | envelopeDecodeError (msg : String)
  | envelopeError (msg : String)
  | dataDecodeError (msg : String)
deriving DecidableEq, Repr

/-- The error-taxonomy kind of a client error, determined by its
construction site (Go has one format string per site). -/
def ClientError.kindName : ClientError → String
  | .marshalError _ => "MarshalError"
  | .requestBuildError _ => "RequestBuildError"
  | .transportError _ => "TransportError"
  | .readBodyError _ => "ReadBodyError"
  | .apiError _ _ => "APIError"
  | .envelopeDecodeError _ => "EnvelopeDecodeError"
  | .envelopeError _ => "EnvelopeError"
  | .dataDecodeError _ => "DataDecodeError"

/-- The status >= 400 branch of `Client.DoRequest`: try to decode the body
as the envelope; if that succeeds and `error` is non-null, surface the
envelope's error string, otherwise surface the raw body text.  Both paths
produce the same `"API error (%d): %s"` error. -/
def respondError (parseEnv : String → Option Envelope) (status : Nat)
    (body : String) : ClientError :=
  match parseEnv body with
  | some env =>
      match env.error with
      | some msg => .apiError status msg
      | none => .apiError status body
  | none => .apiError status body

/-- Response handling of `Client.DoRequest` after the HTTP round trip:
status >= 400 is mapped to an error, otherwise the raw body bytes are
returned for the caller to unwrap. -/
def doRequestHandle (parseEnv : String → Option Envelope) (status : Nat)
    (body : String) : Except ClientError String :=
  if 400 ≤ status then .error (respondError parseEnv status body)
  else .ok body

/-- `client.UnmarshalAPIResponse`: decode the envelope, fail if the
envelope does not parse, fail with the envelope's error message if
`error` is non-null, return the caller's value unmodified if `data` is
absent, otherwise decode `data` into the output value.
`parseData` models `json.Unmarshal` at the caller's output type `V`;
`v0` is the output value before the call (Go mutates `v` in place). -/
def unmarshalAPIResponse {V : Type} (parseEnv : String → Option Envelope)
    (parseData : String → Option V) (payload : String) (v0 : V) :
    Except ClientError V :=
  match parseEnv payload with
  | none => .error (.envelopeDecodeError "failed to unmarshal API response")
  | some env =>
      match env.error with
      | some msg => .error (.envelopeError msg)
      | none =>
          match env.data with
          | none => .ok v0
          | some d =>
              match parseData d with
              | none => .error (.dataDecodeError "failed to unmarshal response data")
              | some v => .ok v

/-! ## Diagnostics emitted by the provider layer -/

/-- Diagnostics added by resource operations (`resp.Diagnostics.AddError` /
`AddWarning`), identified by their summary strings from the source. -/
inductive ProviderDiag where
  | errorParsingConfigJson (detail : String)
  | missingConfiguration
  | errorCreatingCheck (detail : String)
  | errorReadingCheck (detail : String)
  | errorUpdatingCheck (detail : String)
  | invalidImportId
  | errorReadingChannel (detail : String)
  | apiKeyFromStateWarning (detail : String)
deriving DecidableEq, Repr

/-- Whether a diagnostic is an error (vs. a non-fatal warning).  Only the
state-file API-key advisory is added with `AddWarning` in the source. -/
def ProviderDiag.isError : ProviderDiag → Bool
  | .apiKeyFromStateWarning _ => false
  | _ => true

/-! ## Check resource (`internal/provider/check_resource.go`) -/

/-- The `checkResourceModel` attributes relevant to config resolution and
request construction.  Map elements are `types.String` and hence nullable. -/
structure CheckPlan where
  id : Option String
  name : Option String
  typ : Option String
  config : Option (List (String × Option String))
  configJson : Option String
  intervalSeconds : Option Int
  regions : List String
  enabled : Option Bool
  simultaneousRegions : Option Bool
  recheckOnFailure : Option Bool
deriving Repr

/-- The `config`-map branch shared by Create and Update: each element that
is a `types.String` is coerced to its Go string value (`ValueString`). -/
def coerceConfigMap (entries : List (String × Option String)) : JsonObj :=
  entries.map fun kv => (kv.1, JsonVal.str (valueString kv.2))

/-- Config-source resolution in `checkResource.Create`: `config_json` when
non-null and non-empty (parse failure aborts), else the `config` map, else
the `"Missing Configuration"` error.  `parseJson` models `json.Unmarshal`
into `map[string]interface{}`. -/
def resolveConfigCreate (parseJson : String → Option JsonObj)
    (configJson : Option String) (config : Option (List (String × Option String))) :
    Except ProviderDiag JsonObj :=
  match configJson with
  | some s =>
      if s ≠ "" then
        match parseJson s with
        | some m => .ok m
        | none => .error (.errorParsingConfigJson "Could not parse config_json as JSON")
      else
        match config with
        | some entries => .ok (coerceConfigMap entries)
        | none => .error .missingConfiguration
  | none =>
      match config with
      | some entries => .ok (coerceConfigMap entries)
      | none => .error .missingConfiguration

/-- Config-source resolution in `checkResource.Update`: the same two
branches as Create, but with no error case — when neither form is present
`configMap` keeps its zero value (a nil Go map), modelled as `none`. -/
def resolveConfigUpdate (parseJson : String → Option JsonObj)
    (configJson : Option String) (config : Option (List (String × Option String))) :
    Except ProviderDiag (Option JsonObj) :=
  match configJson with
  | some s =>
      if s ≠ "" then
        match parseJson s with
        | some m => .ok (some m)
        | none => .error (.errorParsingConfigJson "Could not parse config_json as JSON")
      else
        match config with
        | some entries => .ok (some (coerceConfigMap entries))
        | none => .ok none
  | none =>
      match config with
      | some entries => .ok (some (coerceConfigMap entries))
      | none => .ok none

/-- `client.CreateCheckRequest`, the body submitted by Create. -/
structure CreateCheckRequest where
  name : String
  typ : String
  config : JsonObj
  intervalSeconds : Int
  regions : List String
  enabled : Bool
deriving Repr

/-- `client.UpdateCheckRequest` as filled in by `checkResource.Update`:
every field pointer is set (full replacement), so every field appears in
the serialized body; `config` points at the resolved map, which is the
nil map (`none`) when neither config form was supplied. -/
structure UpdateCheckRequest where
  name : String
  typ : String
  config : Option JsonObj
  intervalSeconds : Int
  regions : List String
  enabled : Bool
  simultaneousRegions : Bool
  recheckOnFailure : Bool
deriving Repr

/-- The request-construction phase of `checkResource.Create`: resolve the
config source, then assemble the creation body.  An error here means the
operation aborts before any network call. -/
def checkCreateRequest (parseJson : String → Option JsonObj) (plan : CheckPlan) :
    Except ProviderDiag CreateCheckRequest :=
  match resolveConfigCreate parseJson plan.configJson plan.config with
  | .error d => .error d
  | .ok m =>
      .ok { name := valueString plan.name
            typ := valueString plan.typ
            config := m
            intervalSeconds := valueInt64 plan.intervalSeconds
            regions := plan.regions
            enabled := valueBool plan.enabled }

/-- Outcome of the pre-network phase of `checkResource.Update`: the
diagnostics added so far, and the update body if the operation reached the
`r.client.UpdateCheck` call (`none` means no mutation request was issued). -/
structure CheckUpdateOutcome where
  diags : List ProviderDiag
  request : Option UpdateCheckRequest
deriving Repr

/-- The request-construction phase of `checkResource.Update`: resolve the
config source (never failing on absence), then assemble the
full-replacement body and issue the update call. -/
def checkUpdateRequest (parseJson : String → Option JsonObj) (plan : CheckPlan) :
    CheckUpdateOutcome :=
  match resolveConfigUpdate parseJson plan.configJson plan.config with
  | .error d => { diags := [d], request := none }
  | .ok cfg =>
      { diags := []
        request := some
          { name := valueString plan.name
            typ := valueString plan.typ
            config := cfg
            intervalSeconds := valueInt64 plan.intervalSeconds
            regions := plan.regions
            enabled := valueBool plan.enabled
            simultaneousRegions := valueBool plan.simultaneousRegions
            recheckOnFailure := valueBool plan.recheckOnFailure } }

/-! ## expires_after_seconds plan modifier
(`internal/provider/expires_after_seconds_plan_modifier.go`) -/

/-- `expiresAfterSecondsModifier.PlanModifyInt64`: keep the plan value when
it is non-null and its `ValueInt64()` is positive; otherwise fall back to
the state value when that is non-null; otherwise keep the (null) plan
value as-is. -/
def planModifyInt64 (planValue stateValue : Option Int) : Option Int :=
  if planValue.isNone = false ∧ 0 < valueInt64 planValue then planValue
  else if stateValue.isNone = false then stateValue
  else planValue

/-! ## AlertRule resource (`internal/provider/alert_rule_resource.go`,
`internal/client/alert_rules.go`) -/

/-- The `alertRuleResourceModel` attributes.  `condition` is a
`types.Map` of `types.String` elements (nullable), modelled as an
association list; `notification_channel_ids` is a `types.List` of strings. -/
structure AlertRuleModel where
  id : Option String
  checkId : Option String
  name : Option String
  condition : List (String × Option String)
  notificationChannelIds : List String
  enabled : Option Bool
  createdAt : Option String
  updatedAt : Option String
deriving Repr

/-- The condition-map conversion in `alertRuleResource.Update` (and
Create): each `types.String` element becomes its Go string value. -/
def convertCondition (c : List (String × Option String)) : JsonObj :=
  c.map fun kv => (kv.1, JsonVal.str (valueString kv.2))

/-- `client.UpdateAlertRuleRequest`: four pointer fields, each tagged
`json:"...,omitempty"`, so a field appears in the serialized body iff its
pointer is non-nil (`some`). -/
structure UpdateAlertRuleRequest where
  name : Option String
  condition : Option JsonObj
  notificationChannelIds : Option (List String)
  enabled : Option Bool
deriving Repr

/-- The sparse-patch construction in `alertRuleResource.Update`: each field
pointer is set only when the planned value differs from the prior state
value (`ValueString`/`Equal`/`ValueBool` comparisons as in the source). -/
def buildAlertRuleUpdateRequest (plan state : AlertRuleModel) :
    UpdateAlertRuleRequest :=
  { name :=
      if valueString plan.name ≠ valueString state.name
      then some (valueString plan.name) else none
    condition :=
      if plan.condition ≠ state.condition
      then some (convertCondition plan.condition) else none
    notificationChannelIds :=
      if plan.notificationChannelIds ≠ state.notificationChannelIds
      then some plan.notificationChannelIds else none
    enabled :=
      if valueBool plan.enabled ≠ valueBool state.enabled
      then some (valueBool plan.enabled) else none }

/-- The keys present in the serialized JSON body of an
`UpdateAlertRuleRequest`, per the `omitempty` struct tags. -/
def updateAlertRuleBodyKeys (r : UpdateAlertRuleRequest) : List String :=
  (if r.name.isSome then ["name"] else []) ++
  (if r.condition.isSome then ["condition"] else []) ++
  (if r.notificationChannelIds.isSome then ["notification_channel_ids"] else []) ++
  (if r.enabled.isSome then ["enabled"] else [])

/-- Outcome of `alertRuleResource.ImportState`: the `check_id` and `id`
attributes written into state (absent when not set), and the diagnostics. -/
structure ImportStateOutcome where
  checkId : Option String
  ruleId : Option String
  diags : List ProviderDiag
deriving DecidableEq, Repr

/-- Split a character list at every occurrence of `sep`.  For a non-empty
single-character separator this is exactly Go's `strings.Split`: the empty
input yields `[""]`, a trailing separator yields a trailing `""`. -/
def splitOnChar (sep : Char) : List Char → List (List Char)
  | [] => [[]]
  | c :: rest =>
    match splitOnChar sep rest with
    | [] => [[]]
    | part :: parts =>
      if c = sep then [] :: part :: parts else (c :: part) :: parts

/-- Go `strings.Split` for a single-character separator. -/
def goSplit (s : String) (sep : Char) : List String :=
  (splitOnChar sep s.toList).map fun cs => String.mk cs

/-- `alertRuleResource.ImportState`: split the import identifier on `":"`
(Go `strings.Split`); exactly two parts set `check_id` and `id`, any other
shape adds the `"Invalid Import ID"` error and sets neither attribute. -/
def alertRuleImportState (importId : String) : ImportStateOutcome :=
  match goSplit importId ':' with
  | [checkId, ruleId] => { checkId := some checkId, ruleId := some ruleId, diags := [] }
  | _ => { checkId := none, ruleId := none, diags := [.invalidImportId] }

/-! ## NotificationChannel resource
(`notificationChannelResource` in the provider package) -/

/-- The `notificationChannelResourceModel` attributes. -/
structure NotificationChannelModel where
  id : Option String
  orgId : Option String
  name : Option String
  typ : Option String
  config : Option (List (String × Option String))
  enabled : Option Bool
  createdAt : Option String
  updatedAt : Option String
deriving Repr

/-- `client.NotificationChannel`, the API's channel representation; its
`config` is the server-returned map, possibly containing redacted
placeholders for sensitive values. -/
structure NotificationChannel where
  id : String
  orgId : String
  typ : String
  name : String
  config : JsonObj
  enabled : Bool
  createdAt : String
  updatedAt : String

/-- The state reassignments performed by `notificationChannelResource.Read`
after a successful `GetNotificationChannel`: `org_id`, `name`, `type`,
`enabled` and both timestamps are overwritten from the response; no other
field of the prior state is assigned. -/
def notificationChannelReadUpdate (state : NotificationChannelModel)
    (channel : NotificationChannel) : NotificationChannelModel :=
  { state with
    orgId := some channel.orgId
    name := some channel.name
    typ := some channel.typ
    enabled := some channel.enabled
    createdAt := some channel.createdAt
    updatedAt := some channel.updatedAt }

/-! ## Signup resource (`internal/provider/signup_resource.go`) -/

/-- The `signupResourceModel` attributes. -/
structure SignupModel where
  id : Option String
  email : Option String
  orgName : Option String
  orgId : Option String
  apiKey : Option String
  verificationRequired : Option Bool
deriving Repr

/-- A network call issued by a resource operation through the API client. -/
inductive ApiCall where
  | quickSignup (baseURL email orgName : String)
  | doRequest (method path : String)
deriving DecidableEq, Repr

/-- Outcome of a resource operation: the network calls it issued and the
diagnostics it added. -/
structure OpOutcome where
  calls : List ApiCall
  diags : List ProviderDiag
deriving Repr

/-- `signupResource.Create`: issues the unauthenticated quick-signup call. -/
def signupCreate (baseURL : String) (plan : SignupModel) : OpOutcome :=
  { calls := [.quickSignup baseURL (valueString plan.email) (valueString plan.orgName)]
    diags := [] }

/-- `signupResource.Delete`: reads the instance state and returns; the body
invokes no API-client operation and adds no diagnostic (the organization is
never deleted remotely). -/
def signupDelete (_state : SignupModel) : OpOutcome :=
  { calls := [], diags := [] }

/-- `checkResource.Delete` for contrast: issues the delete-by-id request. -/
def checkDelete (state : CheckPlan) : OpOutcome :=
  { calls := [.doRequest "DELETE" ("/v1/checks/" ++ valueString state.id)]
    diags := [] }

/-! ## Provider configuration (`quismonProvider.Configure`,
`readAPIKeyFromState`) -/

/-- Outcome of the configuration-resolution portion of
`quismonProvider.Configure` (after the unknown-value guards): the client's
key and base URL, the diagnostics added, and whether the state-file
fallback (`readAPIKeyFromState`) was invoked. -/
structure ConfigureOutcome where
  apiKey : String
  baseURL : String
  diags : List ProviderDiag
  consultedStateFile : Bool
deriving Repr

/-- `quismonProvider.Configure` configuration resolution: start from the
environment variables, override with non-null configuration values,
default the base URL, and only when the key so resolved is empty invoke
`readAPIKeyFromState` — adopting its key with a non-fatal warning when it
finds one.  `stateFileRead` models the `(apiKey, warning)` result of
`readAPIKeyFromState` (file-system access is external). -/
def providerConfigure (envApiKey envBaseURL : String)
    (cfgApiKey cfgBaseURL : Option String)
    (stateFileRead : String × String) : ConfigureOutcome :=
  let apiKey0 := match cfgApiKey with | some k => k | none => envApiKey
  let baseURL0 := match cfgBaseURL with | some u => u | none => envBaseURL
  let baseURL1 := if baseURL0 = "" then "https://api.quismon.com" else baseURL0
  if apiKey0 = "" then
    let (stateKey, warning) := stateFileRead
    if stateKey ≠ "" then
      { apiKey := stateKey, baseURL := baseURL1
        diags := [.apiKeyFromStateWarning warning], consultedStateFile := true }
    else
      { apiKey := apiKey0, baseURL := baseURL1, diags := [], consultedStateFile := true }
  else
    { apiKey := apiKey0, baseURL := baseURL1, diags := [], consultedStateFile := false }

/-! ## Auxiliary definitions used by the theorems -/

/-- The Go `error.Error()` message of a client error, following the
`fmt.Errorf` format string at each construction site. -/
def ClientError.message : ClientError → String
  | .marshalError msg => "failed to marshal request body: " ++ msg
  | .requestBuildError msg => "failed to create request: " ++ msg
  | .transportError msg => "failed to execute request: " ++ msg
  | .readBodyError msg => "failed to read response body: " ++ msg
  | .apiError status msg => "API error (" ++ toString status ++ "): " ++ msg
  | .envelopeDecodeError msg => "failed to unmarshal API response: " ++ msg
  | .envelopeError msg => "API error: " ++ msg
  | .dataDecodeError msg => "failed to unmarshal response data: " ++ msg

/-- The serialized-body keys of a sparse alert-rule update built from a
plan/state pair. -/
def alertRuleUpdateKeys (plan state : AlertRuleModel) : List String :=
  updateAlertRuleBodyKeys (buildAlertRuleUpdateRequest plan state)

/-- A Check plan with neither `config` nor `config_json` supplied. -/
def planNoConfig : CheckPlan :=
  { id := some "chk-1", name := some "api", typ := some "https"
    config := none, configJson := none
    intervalSeconds := some 60, regions := ["us-east-1"]
    enabled := some true, simultaneousRegions := some false
    recheckOnFailure := some false }

/-- A Check plan supplying both a non-empty `config_json` and a non-empty
`config` map. -/
def planBothConfigs : CheckPlan :=
  { planNoConfig with
    configJson := some "demo-config-json"
    config := some [("host", some "db.internal"), ("port", some "5432")] }

/-- The object produced by parsing `planBothConfigs.configJson`. -/
def demoJsonObj : JsonObj :=
  [("url", .str "https://x"), ("method", .str "GET")]

/-- A JSON-decoder stand-in mapping `planBothConfigs`'s `config_json` text
to `demoJsonObj`. -/
def demoParseJson : String → Option JsonObj :=
  fun s => if s = "demo-config-json" then some demoJsonObj else none

/-- An alert-rule plan: same name as `stateAR`, changed condition. -/
def planAR : AlertRuleModel :=
  { id := some "r1", checkId := some "c1", name := some "latency"
    condition := [("response_time_ms", some "5000")]
    notificationChannelIds := ["ch1"]
    enabled := some true, createdAt := none, updatedAt := none }

/-- The prior alert-rule state paired with `planAR`. -/
def stateAR : AlertRuleModel :=
  { planAR with condition := [("response_time_ms", some "2000")] }

/-- A tracked notification-channel state whose id differs from the id in
the server's read response `chanNC`. -/
def stateNC : NotificationChannelModel :=
  { id := some "chan-a", orgId := some "org-1", name := some "ops"
    typ := some "email"
    config := some [("email", some "ops@example.com"), ("token", some "secret")]
    enabled := some true, createdAt := some "t0", updatedAt := some "t0" }

/-- A server read response carrying a redacted config value and an id
different from the tracked state's. -/
def chanNC : NotificationChannel :=
  { id := "chan-b", orgId := "org-2", typ := "webhook", name := "ops2"
    config := [("email", .str "ops@example.com"), ("token", .str "REDACTED")]
    enabled := false, createdAt := "t1", updatedAt := "t2" }

/-! ## Theorems -/

/-- C1 (counterexample): a 404 response to the check-read request is NOT
surfaced as a distinct not-found error kind: `DoRequest` yields the same
generic `APIError` kind for 404 as it does for 500, with the
`"API error (%d): %s"` message the Read diagnostic then carries. -/
theorem c1_counterexample :
    doRequestHandle (fun _ => none) 404 "missing" =
      .error (.apiError 404 "missing") ∧
    ClientError.kindName (.apiError 404 "missing") =
      ClientError.kindName (.apiError 500 "missing") ∧
    ClientError.message (.apiError 404 "missing") = "API error (404): missing" := by
  refine ⟨?_, rfl, ?_⟩ <;> rfl

/-- C1 (amended): for every HTTP status >= 400, 404 included, `DoRequest`
surfaces the single generic `APIError{status, message}` kind (message from
the envelope's `error` field when parseable, else the raw body); the
source defines no not-found-specific error kind, so a 404 is
distinguishable from other failing statuses only by the numeric status
embedded in that generic error. -/
theorem doRequest_all_4xx_generic_apiError
    (parseEnv : String → Option Envelope) (status : Nat) (body : String)
    (h : 400 ≤ status) :
    ∃ msg, doRequestHandle parseEnv status body = .error (.apiError status msg) ∧
      ClientError.kindName (.apiError status msg) = "APIError" := by
  unfold doRequestHandle respondError
  rw [if_pos h]
  cases hp : parseEnv body with
  | none => exact ⟨body, rfl, rfl⟩
  | some env =>
      cases he : env.error with
      | none => exact ⟨body, by simp [he], rfl⟩
      | some m => exact ⟨m, by simp [he], rfl⟩

/-- C1 (witness): instantiation of the amended theorem at status 404. -/
theorem doRequest_all_4xx_generic_apiError_witness :
    400 ≤ 404 ∧
    ∃ msg, doRequestHandle (fun _ => none) 404 "gone" = .error (.apiError 404 msg) ∧
      ClientError.kindName (.apiError 404 msg) = "APIError" :=
  ⟨by decide, doRequest_all_4xx_generic_apiError (fun _ => none) 404 "gone" (by decide)⟩

/-- C10: `UnmarshalAPIResponse` returns an error when the payload does not
decode as the envelope; returns an error carrying the envelope's `error`
message when that field is non-null; and succeeds leaving the output value
unmodified when the envelope has no `data` field. -/
theorem unmarshalAPIResponse_envelope_behavior {V : Type}
    (parseEnv : String → Option Envelope) (parseData : String → Option V)
    (payload : String) (v0 : V) :
    (parseEnv payload = none →
      unmarshalAPIResponse parseEnv parseData payload v0 =
        .error (.envelopeDecodeError "failed to unmarshal API response")) ∧
    (∀ env msg, parseEnv payload = some env → env.error = some msg →
      unmarshalAPIResponse parseEnv parseData payload v0 =
        .error (.envelopeError msg)) ∧
    (∀ env, parseEnv payload = some env → env.error = none → env.data = none →
      unmarshalAPIResponse parseEnv parseData payload v0 = .ok v0) := by
  refine ⟨fun hp => ?_, fun env msg hp he => ?_, fun env hp he hd => ?_⟩ <;>
    unfold unmarshalAPIResponse <;> rw [hp]
  · simp [he]
  · simp [he, hd]

/-- C10 (witness): instantiations for a non-envelope payload, an envelope
with a non-null error, and an envelope with no data field. -/
theorem unmarshalAPIResponse_envelope_behavior_witness :
    unmarshalAPIResponse (V := Nat) (fun _ => none) (fun _ => none) "bad" 7 =
      .error (.envelopeDecodeError "failed to unmarshal API response") ∧
    unmarshalAPIResponse (V := Nat) (fun _ => some ⟨some "1", some "boom"⟩)
      (fun _ => none) "p" 7 = .error (.envelopeError "boom") ∧
    unmarshalAPIResponse (V := Nat) (fun _ => some ⟨none, none⟩)
      (fun _ => some 9) "p" 7 = .ok 7 :=
  ⟨(unmarshalAPIResponse_envelope_behavior (fun _ => none) (fun _ => none) "bad" 7).1 rfl,
   (unmarshalAPIResponse_envelope_behavior (fun _ => some ⟨some "1", some "boom"⟩)
      (fun _ => none) "p" 7).2.1 ⟨some "1", some "boom"⟩ "boom" rfl rfl,
   (unmarshalAPIResponse_envelope_behavior (fun _ => some ⟨none, none⟩)
      (fun _ => some 9) "p" 7).2.2 ⟨none, none⟩ rfl rfl rfl⟩

/-- C2 (counterexample): a Check Update whose plan supplies neither a
config map nor a config_json does NOT fail — it adds no diagnostic and
still issues the update request (with the nil config map). -/
theorem c2_counterexample :
    planNoConfig.config = none ∧ planNoConfig.configJson = none ∧
    (checkUpdateRequest (fun _ => none) planNoConfig).diags = [] ∧
    (checkUpdateRequest (fun _ => none) planNoConfig).request.isSome = true := by
  exact ⟨rfl, rfl, rfl, rfl⟩

/-- C2 (amended): when neither config form is present, Check Create does
abort with the `Missing Configuration` error before any network call, but
Check Update does not share that failure condition: its resolution has no
error branch for the missing case, so it adds no diagnostic and submits
the full-replacement update request with a nil (`none`) config. -/
theorem checkUpdate_missing_config_proceeds
    (parseJson : String → Option JsonObj) (plan : CheckPlan)
    (hj : plan.configJson = none) (hc : plan.config = none) :
    resolveConfigCreate parseJson plan.configJson plan.config =
      .error .missingConfiguration ∧
    (checkUpdateRequest parseJson plan).diags = [] ∧
    ∃ r, (checkUpdateRequest parseJson plan).request = some r ∧
      r.config = none := by
  rw [hj, hc]
  refine ⟨rfl, ?_, ?_⟩
  · simp [checkUpdateRequest, resolveConfigUpdate, hj, hc]
  · refine ⟨{ name := valueString plan.name, typ := valueString plan.typ
              config := none, intervalSeconds := valueInt64 plan.intervalSeconds
              regions := plan.regions, enabled := valueBool plan.enabled
              simultaneousRegions := valueBool plan.simultaneousRegions
              recheckOnFailure := valueBool plan.recheckOnFailure }, ?_, rfl⟩
    simp [checkUpdateRequest, resolveConfigUpdate, hj, hc]

/-- C2 (witness): instantiation of the amended theorem at the concrete
no-config plan. -/
theorem checkUpdate_missing_config_proceeds_witness :
    resolveConfigCreate (fun _ => none) planNoConfig.configJson planNoConfig.config =
      .error .missingConfiguration ∧
    (checkUpdateRequest (fun _ => none) planNoConfig).diags = [] ∧
    ∃ r, (checkUpdateRequest (fun _ => none) planNoConfig).request = some r ∧
      r.config = none :=
  checkUpdate_missing_config_proceeds (fun _ => none) planNoConfig rfl rfl

/-- C4: when `config_json` is non-null and non-empty and the `config` map
is also supplied, the creation body's config is exactly the map obtained
by JSON-parsing `config_json` — the `config` map's entries never reach the
request unless they already occur in the parsed JSON. -/
theorem checkCreate_configJson_wins
    (parseJson : String → Option JsonObj) (plan : CheckPlan)
    (s : String) (m : JsonObj)
    (hjson : plan.configJson = some s) (hne : s ≠ "")
    (hparse : parseJson s = some m) :
    ∃ req, checkCreateRequest parseJson plan = .ok req ∧ req.config = m ∧
      ∀ kv, kv ∈ req.config → kv ∈ m := by
  refine ⟨{ name := valueString plan.name, typ := valueString plan.typ
            config := m, intervalSeconds := valueInt64 plan.intervalSeconds
            regions := plan.regions, enabled := valueBool plan.enabled }, ?_, rfl,
          fun kv hkv => hkv⟩
  simp [checkCreateRequest, resolveConfigCreate, hjson, hne, hparse]

/-- C4 (witness): instantiation at a plan with both config forms present. -/
theorem checkCreate_configJson_wins_witness :
    planBothConfigs.config = some [("host", some "db.internal"), ("port", some "5432")] ∧
    ∃ req, checkCreateRequest demoParseJson planBothConfigs = .ok req ∧
      req.config = demoJsonObj ∧ ∀ kv, kv ∈ req.config → kv ∈ demoJsonObj :=
  ⟨rfl, checkCreate_configJson_wins demoParseJson planBothConfigs
    "demo-config-json" demoJsonObj rfl (by decide) rfl⟩

/-- C5: under the `expires_after_seconds` plan modifier, with a non-null
prior state value `s`, a planned value that is null or not strictly
positive is replaced by `s` carried forward from state; conversely the
planned value survives (when it differs from `s`) only when it is non-null
and strictly positive. -/
theorem expiresAfterSeconds_preserved_from_state (s : Int) (plan : Option Int) :
    ((plan = none ∨ ∃ v, plan = some v ∧ v ≤ 0) →
      planModifyInt64 plan (some s) = some s) ∧
    (planModifyInt64 plan (some s) = plan →
      plan = some s ∨ ∃ v, plan = some v ∧ 0 < v) := by
  constructor
  · rintro (rfl | ⟨v, rfl, hv⟩)
    · simp [planModifyInt64, valueInt64]
    · simp [planModifyInt64, valueInt64, not_lt.mpr hv]
  · intro hkeep
    cases plan with
    | none => simp [planModifyInt64, valueInt64] at hkeep
    | some v =>
        by_cases hv : 0 < v
        · exact Or.inr ⟨v, rfl, hv⟩
        · left
          simp [planModifyInt64, valueInt64, hv] at hkeep
          rw [hkeep]

/-- C5 (witness): with prior state 3600, both a null plan and a zero plan
resolve to 3600. -/
theorem expiresAfterSeconds_preserved_from_state_witness :
    planModifyInt64 none (some 3600) = some 3600 ∧
    planModifyInt64 (some 0) (some 3600) = some 3600 :=
  ⟨(expiresAfterSeconds_preserved_from_state 3600 none).1 (Or.inl rfl),
   (expiresAfterSeconds_preserved_from_state 3600 (some 0)).1
     (Or.inr ⟨0, rfl, le_refl 0⟩)⟩

/-- C3: the serialized AlertRule update body contains each of `name`,
`condition`, `notification_channel_ids`, `enabled` exactly when that
field's planned value differs from the prior state value; in particular an
equal name is omitted entirely and a changed condition is included. -/
theorem alertRuleUpdate_sparse_patch
    (plan state : AlertRuleModel) (pn sn : String) (pe se : Bool)
    (hpn : plan.name = some pn) (hsn : state.name = some sn)
    (hpe : plan.enabled = some pe) (hse : state.enabled = some se) :
    ("name" ∈ alertRuleUpdateKeys plan state ↔ pn ≠ sn) ∧
    ("condition" ∈ alertRuleUpdateKeys plan state ↔
      plan.condition ≠ state.condition) ∧
    ("notification_channel_ids" ∈ alertRuleUpdateKeys plan state ↔
      plan.notificationChannelIds ≠ state.notificationChannelIds) ∧
    ("enabled" ∈ alertRuleUpdateKeys plan state ↔ pe ≠ se) := by
  unfold alertRuleUpdateKeys updateAlertRuleBodyKeys buildAlertRuleUpdateRequest
  rw [hpn, hsn, hpe, hse]
  by_cases h1 : pn = sn <;> by_cases h2 : plan.condition = state.condition <;>
    by_cases h3 : plan.notificationChannelIds = state.notificationChannelIds <;>
    by_cases h4 : pe = se <;>
    simp [h1, h2, h3, h4, valueString, valueBool]

/-- C3 (witness): for the concrete pair `planAR`/`stateAR` — identical
name, changed condition — `name` is absent from the body and `condition`
is present. -/
theorem alertRuleUpdate_sparse_patch_witness :
    (("name" ∈ alertRuleUpdateKeys planAR stateAR ↔ ("latency" : String) ≠ "latency") ∧
     ("condition" ∈ alertRuleUpdateKeys planAR stateAR ↔
       planAR.condition ≠ stateAR.condition) ∧
     ("notification_channel_ids" ∈ alertRuleUpdateKeys planAR stateAR ↔
       planAR.notificationChannelIds ≠ stateAR.notificationChannelIds) ∧
     ("enabled" ∈ alertRuleUpdateKeys planAR stateAR ↔ (true : Bool) ≠ true)) ∧
    "name" ∉ alertRuleUpdateKeys planAR stateAR ∧
    "condition" ∈ alertRuleUpdateKeys planAR stateAR := by
  refine ⟨alertRuleUpdate_sparse_patch planAR stateAR
    "latency" "latency" true true rfl rfl rfl rfl, ?_, ?_⟩ <;> decide

/-- C6 (counterexample): a successful NotificationChannel Read does not
refresh `id` from the API response: with a response whose id differs from
the tracked one, the tracked id is kept, so `id` is not among the fields
taken from the response. -/
theorem c6_counterexample :
    (notificationChannelReadUpdate stateNC chanNC).id = some "chan-a" ∧
    chanNC.id = "chan-b" ∧
    (notificationChannelReadUpdate stateNC chanNC).id ≠ some chanNC.id := by
  refine ⟨rfl, rfl, ?_⟩
  decide

/-- C6 (amended): a successful NotificationChannel Read leaves both the
`config` attribute and the `id` attribute exactly as they were (the
server's possibly redacted config is never written back), while `org_id`,
`name`, `type`, `enabled` and both timestamps are refreshed from the API
response. -/
theorem notificationChannelRead_frame
    (state : NotificationChannelModel) (channel : NotificationChannel) :
    (notificationChannelReadUpdate state channel).config = state.config ∧
    (notificationChannelReadUpdate state channel).id = state.id ∧
    (notificationChannelReadUpdate state channel).orgId = some channel.orgId ∧
    (notificationChannelReadUpdate state channel).name = some channel.name ∧
    (notificationChannelReadUpdate state channel).typ = some channel.typ ∧
    (notificationChannelReadUpdate state channel).enabled = some channel.enabled ∧
    (notificationChannelReadUpdate state channel).createdAt = some channel.createdAt ∧
    (notificationChannelReadUpdate state channel).updatedAt = some channel.updatedAt :=
  ⟨rfl, rfl, rfl, rfl, rfl, rfl, rfl, rfl⟩

/-- C7 (counterexample): with the environment variable non-empty but the
configuration explicitly supplying an empty `api_key`, the state-file
fallback IS consulted and its key adopted — so the fallback is not
consulted only when both the configuration value and the environment
variable yield an empty key. -/
theorem c7_counterexample :
    (providerConfigure "env-key" "" (some "") none
      ("state-key", "tip")).consultedStateFile = true ∧
    (providerConfigure "env-key" "" (some "") none
      ("state-key", "tip")).apiKey = "state-key" ∧
    ("env-key" : String) ≠ "" := by
  refine ⟨by decide, by decide, by decide⟩

/-- C7 (amended): a non-null non-empty configured `api_key` wins over the
environment variable; the state-file fallback is consulted exactly when
the key resolved from configuration (when non-null, even if empty) or
else from the environment is empty; and when the fallback finds a key it
adds a single non-fatal warning diagnostic, never an error. -/
theorem providerConfigure_resolution
    (envApiKey envBaseURL : String) (cfgApiKey cfgBaseURL : Option String)
    (stateKey warning : String) :
    (∀ k, cfgApiKey = some k → k ≠ "" →
      (providerConfigure envApiKey envBaseURL cfgApiKey cfgBaseURL
        (stateKey, warning)).apiKey = k) ∧
    ((providerConfigure envApiKey envBaseURL cfgApiKey cfgBaseURL
        (stateKey, warning)).consultedStateFile = true ↔
      cfgApiKey.getD envApiKey = "") ∧
    (cfgApiKey.getD envApiKey = "" → stateKey ≠ "" →
      (providerConfigure envApiKey envBaseURL cfgApiKey cfgBaseURL
        (stateKey, warning)).apiKey = stateKey ∧
      (providerConfigure envApiKey envBaseURL cfgApiKey cfgBaseURL
        (stateKey, warning)).diags = [.apiKeyFromStateWarning warning] ∧
      ∀ d ∈ (providerConfigure envApiKey envBaseURL cfgApiKey cfgBaseURL
        (stateKey, warning)).diags, d.isError = false) := by
  cases cfgApiKey with
  | none =>
      by_cases he : envApiKey = ""
      · by_cases hs : stateKey = "" <;>
          simp [providerConfigure, he, hs, ProviderDiag.isError]
      · simp [providerConfigure, he]
  | some k =>
      by_cases hk : k = ""
      · by_cases hs : stateKey = "" <;>
          simp [providerConfigure, hk, hs, ProviderDiag.isError]
      · simp [providerConfigure, hk]

/-- C7 (witness): instantiation of the amended theorem with a null
configured key, an empty environment key, and a state file carrying one. -/
theorem providerConfigure_resolution_witness :
    (providerConfigure "" "" none none ("state-key", "tip")).apiKey = "state-key" ∧
    (providerConfigure "" "" none none
      ("state-key", "tip")).diags = [.apiKeyFromStateWarning "tip"] ∧
    ∀ d ∈ (providerConfigure "" "" none none ("state-key", "tip")).diags,
      d.isError = false :=
  (providerConfigure_resolution "" "" none none "state-key" "tip").2.2
    rfl (by decide)

/-- C8: AlertRule import on a colon-delimited two-part identifier sets
`check_id` to the first part and `id` to the second; any identifier that
does not split into exactly two parts yields the invalid-import-ID error
and sets neither attribute. -/
theorem alertRuleImport_colon_format :
    alertRuleImportState "abc:def" =
      { checkId := some "abc", ruleId := some "def", diags := [] } ∧
    ∀ s, (goSplit s ':').length ≠ 2 →
      alertRuleImportState s =
        { checkId := none, ruleId := none, diags := [.invalidImportId] } := by
  refine ⟨by decide, ?_⟩
  intro s hs
  unfold alertRuleImportState
  rcases hg : goSplit s ':' with _ | ⟨a, _ | ⟨b, _ | ⟨c, t⟩⟩⟩
  · rfl
  · rfl
  · exact absurd (show (goSplit s ':').length = 2 by rw [hg]; rfl) hs
  · rfl

/-- C8 (witness): the concrete identifiers named by the specification:
`"abc:def"` imports, `"abc"` and `"a:b:c"` fail setting neither field. -/
theorem alertRuleImport_colon_format_witness :
    alertRuleImportState "abc:def" =
      { checkId := some "abc", ruleId := some "def", diags := [] } ∧
    alertRuleImportState "abc" =
      { checkId := none, ruleId := none, diags := [.invalidImportId] } ∧
    alertRuleImportState "a:b:c" =
      { checkId := none, ruleId := none, diags := [.invalidImportId] } :=
  ⟨alertRuleImport_colon_format.1,
   alertRuleImport_colon_format.2 "abc" (by decide),
   alertRuleImport_colon_format.2 "a:b:c" (by decide)⟩

/-- C9: Signup Delete issues no network call and adds no diagnostic: it is
a local no-op that succeeds unconditionally, leaving the remote
organization untouched. -/
theorem signupDelete_no_network_call (state : SignupModel) :
    (signupDelete state).calls = [] ∧ (signupDelete state).diags = [] :=
  ⟨rfl, rfl⟩

end Quismon
